import Mathlib

/-!
# Authentication core of the api-server

A shallow embedding of `internal/data/models.go` (token and user store, token
generation, bearer authentication) and of `cmd/api/helpers.go`,
`cmd/api/handlers.go` (request decoding, error classification, the `Login` and
`ValidateToken` handlers).

Conventions of the embedding:

* a Go `string` is its sequence of bytes (`GoString`), so `len` is `List.length`;
* a Go `error` is identified with the text of its `Error()` method, `nil` is `none`;
* the relational store is a pair of row lists, every query is recorded in a trace;
* `time.Time` is an integer count of instants, `Before` is `<`;
* `database/sql`, `encoding/json`, `encoding/base32`, `bcrypt`, `crypto/rand` and
  `sha256` are collaborators: the first three are modelled from their documented
  behaviour, the last three are inputs of the operations that use them.
-/

set_option linter.dupNamespace false

namespace SpaAuth

/-! ## Strings and errors -/

/-- A Go string: a sequence of bytes. -/
abbrev GoString := List Nat

/-- The bytes of an ASCII literal. -/
def lit (s : String) : GoString := s.toList.map Char.toNat

/-- A Go error value, identified with its message. -/
abbrev GoError := GoString

deriving instance DecidableEq for Except

/-- A point in time (`time.Time`). -/
abbrev Time := Int

/-- The byte of the space character, the separator used by `AuthenticateToken`. -/
def space : Nat := 32

/-- Go `strings.Split(s, sep)` for a separator of one byte: the pieces of `s`
between consecutive occurrences of `sep`. -/
def Split : GoString → Nat → List GoString
  | [], _ => [[]]
  | c :: cs, sep =>
    if c = sep then [] :: Split cs sep
    else
      match Split cs sep with
      | [] => [[c]]
      | p :: ps => (c :: p) :: ps

/-- Go `strings.Contains(s, substr)`. -/
def Contains : GoString → GoString → Bool
  | [], substr => substr.isEmpty
  | c :: cs, substr => substr.isPrefixOf (c :: cs) || Contains cs substr

/-! ## Data model (`internal/data/models.go`) -/

/-- The `Token` struct, also the shape of a row of table `tokens`. -/
structure Token where
  ID : Int
  UserId : Int
  Email : GoString
  Token : GoString
  TokenHash : List Nat
  CreatedAt : Time
  UpdatedAt : Time
  Expiry : Time
  deriving DecidableEq, Repr

/-- The zero value of `Token`. -/
def Token.zero : SpaAuth.Token :=
  { ID := 0, UserId := 0, Email := [], Token := [], TokenHash := [],
    CreatedAt := 0, UpdatedAt := 0, Expiry := 0 }

/-- The `User` struct. -/
structure User where
  ID : Int
  Email : GoString
  FirstName : GoString
  LastName : GoString
  Password : GoString
  Active : Bool
  CreatedAt : GoString
  UpdatedAt : GoString
  Token : Token
  deriving DecidableEq, Repr

/-- A row of table `users`. -/
structure UserRow where
  id : Int
  email : GoString
  first_name : GoString
  last_name : GoString
  password : GoString
  created_at : GoString
  updated_at : GoString
  user_active : Bool
  deriving DecidableEq, Repr

/-- The backing store: the two tables. -/
structure DB where
  users : List UserRow
  tokens : List Token
  deriving DecidableEq, Repr

/-- What a handler or store operation does besides computing its result: the
statements sent to the store and the draws from the random source. -/
inductive Event where
  | selectUserByEmail (email : GoString)
  | selectUserById (id : Int)
  | selectTokenByToken (plainText : GoString)
  | selectTokensByUser (userId : Int)
  | insertToken (row : Token)
  | deleteTokenByToken (plainText : GoString)
  | randRead
  deriving DecidableEq, Repr

/-- The user value that scanning a `users` row through pointers fills in. -/
def UserRow.toUser (r : UserRow) : User :=
  { ID := r.id, Email := r.email, FirstName := r.first_name, LastName := r.last_name,
    Password := r.password, Active := r.user_active, CreatedAt := r.created_at,
    UpdatedAt := r.updated_at, Token := Token.zero }

/-- The error `sql.ErrNoRows`. -/
def ErrNoRows : GoError := lit "sql: no rows in result set"

/-- The error of `database/sql` when a `Scan` destination is not a pointer. -/
def errNotAPointer : GoError :=
  lit "sql: Scan error on column index 0, name " ++ [34] ++ lit "id" ++ [34] ++
    lit ": destination not a pointer"

/-- Go `(*sql.Row).Scan`: `ErrNoRows` when the query selected no row; otherwise the
columns are stored through the destinations, which have to be pointers: a
destination passed by value makes `Scan` fail. -/
def Scan {α β : Type} (row : Option α) (destsArePointers : Bool) (store : α → β) :
    Except GoError β :=
  match row with
  | none => .error ErrNoRows
  | some r => if destsArePointers then .ok (store r) else .error errNotAPointer

/-- Go `User.GetByEmail`: `SELECT ... FROM users WHERE email = $1`, scanned into
`&user.ID, &user.Email, ...`. -/
def User.GetByEmail (db : DB) (email : GoString) : Except GoError User :=
  Scan (db.users.find? (fun r => r.email = email)) true UserRow.toUser

/-- Go `User.GetById`: `SELECT ... FROM users WHERE id = $1`, scanned into
`&user.ID, &user.Email, ...`. -/
def User.GetById (db : DB) (id : Int) : Except GoError User :=
  Scan (db.users.find? (fun r => r.id = id)) true UserRow.toUser

/-- Go `Token.GetByToken`: `SELECT ... FROM tokens WHERE token = $1`, scanned into
`&token.ID, &token.UserId, ...`. -/
def Token.GetByToken (db : DB) (plainText : GoString) : Except GoError SpaAuth.Token :=
  Scan (db.tokens.find? (fun t => t.Token = plainText)) true id

/-- Go `Token.GetUserForToken`: `SELECT ... FROM users WHERE id = $1`, scanned into
`user.ID, user.Email, ...` (the field values, not their addresses). -/
def Token.GetUserForToken (db : DB) (token : SpaAuth.Token) : Except GoError User :=
  Scan (db.users.find? (fun r => r.id = token.UserId)) false UserRow.toUser

/-- Go `Token.AuthenticateToken`, on the value of the `Authorization` header
(`""` when the header is absent) and the value of `time.Now()`. Returns the
result and the store statements issued. -/
def Token.AuthenticateToken (db : DB) (now : Time) (authorizationHeader : GoString) :
    Except GoError User × List Event :=
  if authorizationHeader = [] then
    (.error (lit "no authorization header received"), [])
  else
    let headerParts := Split authorizationHeader space
    if headerParts.length ≠ 2 ∨ headerParts.getD 0 [] ≠ lit "Bearer" then
      (.error (lit "no valid authorization header received"), [])
    else
      let token := headerParts.getD 1 []
      if token.length ≠ 26 then
        (.error (lit "token wrong size"), [])
      else
        match Token.GetByToken db token with
        | .error _ =>
          (.error (lit "no matching token found"), [Event.selectTokenByToken token])
        | .ok tfd =>
          if tfd.Expiry < now then
            (.error (lit "token has expired"), [Event.selectTokenByToken token])
          else
            match Token.GetUserForToken db tfd with
            | .error _ =>
              (.error (lit "no matching user found"),
                [Event.selectTokenByToken token, Event.selectUserById tfd.UserId])
            | .ok user =>
              if user.Active = false then
                (.error (lit "user is not active"),
                  [Event.selectTokenByToken token, Event.selectUserById tfd.UserId])
              else
                (.ok user, [Event.selectTokenByToken token, Event.selectUserById tfd.UserId])

/-- Go `Token.ValidToken`: the pair `(bool, error)` it returns and the store
statements issued. -/
def Token.ValidToken (db : DB) (now : Time) (plainText : GoString) :
    (Bool × Option GoError) × List Event :=
  match Token.GetByToken db plainText with
  | .error _ =>
    ((false, some (lit "no matching token found")), [Event.selectTokenByToken plainText])
  | .ok token =>
    match Token.GetUserForToken db token with
    | .error _ =>
      ((false, some (lit "no matching user found")),
        [Event.selectTokenByToken plainText, Event.selectUserById token.UserId])
    | .ok _ =>
      if token.Expiry < now then
        ((false, some (lit "token has expired")),
          [Event.selectTokenByToken plainText, Event.selectUserById token.UserId])
      else
        ((true, none), [Event.selectTokenByToken plainText, Event.selectUserById token.UserId])

/-! ## Token generation -/

/-- The alphabet of `base32.StdEncoding`. -/
def encodeStd : GoString := lit "ABCDEFGHIJKLMNOPQRSTUVWXYZ234567"

/-- Go `(*base32.Encoding).EncodedLen` without padding. -/
def EncodedLen (n : Nat) : Nat := n / 5 * 8 + (n % 5 * 8 + 4) / 5

/-- The eight 5-bit values that `base32` `Encode` unpacks from one quantum of at
most five source bytes (the `switch len(src)` with its fall-through cases);
the arithmetic is that of `byte`. -/
def unpackQuantum (src : List Nat) : List Nat :=
  let n := src.length
  let s0 := src.getD 0 0
  let s1 := src.getD 1 0
  let s2 := src.getD 2 0
  let s3 := src.getD 3 0
  let s4 := src.getD 4 0
  let b7 := if 5 ≤ n then s4 &&& 31 else 0
  let b6 := (if 5 ≤ n then s4 >>> 5 else 0) ||| (if 4 ≤ n then ((s3 <<< 3) % 256) &&& 31 else 0)
  let b5 := if 4 ≤ n then (s3 >>> 2) &&& 31 else 0
  let b4 := (if 4 ≤ n then s3 >>> 7 else 0) ||| (if 3 ≤ n then ((s2 <<< 1) % 256) &&& 31 else 0)
  let b3 := (if 3 ≤ n then (s2 >>> 4) &&& 31 else 0) |||
    (if 2 ≤ n then ((s1 <<< 4) % 256) &&& 31 else 0)
  let b2 := if 2 ≤ n then (s1 >>> 1) &&& 31 else 0
  let b1 := (if 2 ≤ n then (s1 >>> 6) &&& 31 else 0) |||
    (if 1 ≤ n then ((s0 <<< 2) % 256) &&& 31 else 0)
  let b0 := if 1 ≤ n then s0 >>> 3 else 0
  [b0, b1, b2, b3, b4, b5, b6, b7]

/-- The eight characters `enc.encode[b[i]&31]` of one quantum. -/
def encodeQuantum (src : List Nat) : GoString :=
  (unpackQuantum src).map (fun b => encodeStd.getD (b &&& 31) 0)

/-- The loop of `base32` `Encode` without padding: full quanta of five bytes give
eight characters each, the loop stops after a last shorter quantum. -/
def encodeLoop : List Nat → GoString
  | [] => []
  | a :: b :: c :: d :: e :: rest => encodeQuantum [a, b, c, d, e] ++ encodeLoop rest
  | short => encodeQuantum short

/-- Go `base32.StdEncoding.WithPadding(base32.NoPadding).EncodeToString`: the
destination has `EncodedLen` bytes, what the loop writes beyond it is dropped. -/
def EncodeToString (src : List Nat) : GoString :=
  (encodeLoop src).take (EncodedLen src.length)

/-- The result of `bcrypt.CompareHashAndPassword`: nil, the error
`ErrMismatchedHashAndPassword`, or another error. -/
inductive CompareResult where
  | matched
  | mismatched
  | failed (err : GoError)
  deriving DecidableEq, Repr

/-- What a request takes from outside the store: the clock, the result of
`rand.Read` on the 16-byte buffer, `bcrypt.CompareHashAndPassword` and `sha256.Sum256`. -/
structure Env where
  now : Time
  randRead : Except GoError (List Nat)
  compareHashAndPassword : GoString → GoString → CompareResult
  sum256 : GoString → List Nat

/-- Go `Token.GenerateToken`. -/
def Token.GenerateToken (env : Env) (userID : Int) (ttl : Int) : Except GoError SpaAuth.Token :=
  match env.randRead with
  | .error err => .error err
  | .ok randomBytes =>
    let tokenText := EncodeToString randomBytes
    .ok { ID := 0, UserId := userID, Email := [], Token := tokenText,
          TokenHash := env.sum256 tokenText, CreatedAt := 0, UpdatedAt := 0,
          Expiry := env.now + ttl }

/-- Go `User.PasswordMatches`: `(bool, error)`. -/
def User.PasswordMatches (env : Env) (u : User) (plainText : GoString) : Bool × Option GoError :=
  match env.compareHashAndPassword u.Password plainText with
  | .mismatched => (false, none)
  | .failed err => (false, some err)
  | .matched => (true, none)

/-- Go `Token.Insert`: the inert `SELECT FROM tokens WHERE user_id = $1`, then the
`INSERT`; the store assigns the identity column. Returns the new store and the
statements issued. -/
def Token.Insert (db : DB) (token : SpaAuth.Token) (user : User) : DB × Option GoError × List Event :=
  let row := { token with Email := user.Email, ID := (db.tokens.length : Int) + 1 }
  ({ db with tokens := db.tokens ++ [row] }, none,
    [Event.selectTokensByUser token.UserId, Event.insertToken row])

/-! ## Request decoding and responses (`cmd/api/helpers.go`) -/

/-- The `Data` member of a response: absent, a boolean, or the login envelope. -/
inductive Payload where
  | absent
  | flag (b : Bool)
  | login (token : Token) (user : User)
  deriving DecidableEq, Repr

/-- The `jsonResponse` struct. -/
structure jsonResponse where
  Error : Bool
  Message : GoString
  Data : Payload
  deriving DecidableEq, Repr

/-- One call of `writeJSON` on the response writer: status and body. -/
structure Written where
  status : Nat
  body : jsonResponse
  deriving DecidableEq, Repr

/-- A request body as `encoding/json` sees it: the string members the first
`Decode` stores (by JSON name of the destination field), the error of that
`Decode`, and whether the second `Decode` then meets the end of the input. -/
structure Body where
  members : List (String × GoString)
  decodeErr : Option GoError
  atEOF : Bool
  deriving DecidableEq, Repr

/-- What `Decode` leaves in a string field with the given JSON name: the member
of that name for an exported field, the zero value for an unexported one, which
`encoding/json` never sets. -/
def decodeField (body : Body) (exported : Bool) (name : String) : GoString :=
  if exported then (body.members.lookup name).getD [] else []

/-- Go `application.readJSON`: the error it returns. -/
def readJSON (body : Body) : Option GoError :=
  match body.decodeErr with
  | some err => some err
  | none =>
    if body.atEOF then none
    else some (lit "body must only have a single json value")

/-- Go `application.writeJSON`: one more response on the writer. -/
def writeJSON (w : List Written) (status : Nat) (data : jsonResponse) : List Written :=
  w ++ [{ status := status, body := data }]

/-- The status `http.StatusOK`. -/
def StatusOK : Nat := 200

/-- The status `http.StatusBadRequest`. -/
def StatusBadRequest : Nat := 400

/-- The status `http.StatusForbidden`. -/
def StatusForbidden : Nat := 403

/-- Go `application.errorJSON`: the writer afterwards, or `none` when the call
panics (`err.Error()` on a nil `err`). -/
def errorJSON (w : List Written) (err : Option GoError) (status : List Nat) :
    Option (List Written) :=
  match err with
  | none => none
  | some e =>
    let statusCode := if status.length > 0 then status.getD 0 0 else StatusBadRequest
    let (customErr, statusCode) :=
      if Contains e (lit "SQLSTATE 23505") then
        (lit "duplicate value violates unique constraint", StatusForbidden)
      else if Contains e (lit "SQLSTATE 22001") then
        (lit "the value you are trying to insert is too large", StatusForbidden)
      else if Contains e (lit "SQLSTATE 23503") then
        (lit "foreign key violation", StatusForbidden)
      else
        (e, statusCode)
    some (writeJSON w statusCode { Error := true, Message := customErr, Data := .absent })

/-! ## Handlers (`cmd/api/handlers.go`) -/

/-- What a handler leaves behind: the store, the responses written, the trace of
store statements and random draws, and whether it ended in a panic. -/
structure Outcome where
  db : DB
  written : List Written
  events : List Event
  panicked : Bool
  deriving DecidableEq, Repr

/-- The end of a handler through `app.errorJSON(w, err); return`. -/
def failWith (db : DB) (w : List Written) (events : List Event) (err : Option GoError) : Outcome :=
  match errorJSON w err [] with
  | none => { db := db, written := w, events := events, panicked := true }
  | some w1 => { db := db, written := w1, events := events, panicked := false }

/-- Go `application.Login`. -/
def Login (env : Env) (db : DB) (body : Body) : Outcome :=
  let Username := decodeField body true "email"
  let Password := decodeField body true "password"
  let w : List Written :=
    match readJSON body with
    | some _ =>
      writeJSON [] StatusBadRequest
        { Error := true, Message := lit "invalid json supplied", Data := .absent }
    | none => []
  let ev1 := [Event.selectUserByEmail Username]
  match User.GetByEmail db Username with
  | .error err => failWith db w ev1 (some err)
  | .ok user =>
    let (validPassword, err) := User.PasswordMatches env user Password
    if err ≠ none ∨ validPassword = false then failWith db w ev1 err
    else if user.Active = false then failWith db w ev1 (some (lit "user is not active"))
    else
      let ev2 := ev1 ++ [Event.randRead]
      match Token.GenerateToken env user.ID (24 * 3600 * 1000000000) with
      | .error err => failWith db w ev2 (some err)
      | .ok token =>
        match Token.Insert db token user with
        | (db1, some err, ev) => failWith db1 w (ev2 ++ ev) (some err)
        | (db1, none, ev) =>
          { db := db1
            written := writeJSON w StatusOK
              { Error := false, Message := lit "logged in", Data := .login token user }
            events := ev2 ++ ev
            panicked := false }

/-- Go `application.ValidateToken`. -/
def ValidateToken (env : Env) (db : DB) (body : Body) : Outcome :=
  let token := decodeField body false "token"
  match (match readJSON body with
         | some err => errorJSON [] (some err) []
         | none => some []) with
  | none => { db := db, written := [], events := [], panicked := true }
  | some w =>
    let r := Token.ValidToken db env.now token
    { db := db
      written := writeJSON w StatusOK { Error := false, Message := [], Data := .flag r.1.1 }
      events := r.2
      panicked := false }

/-- A byte of the unpadded base-32 alphabet: `A`-`Z` or `2`-`7`. -/
def isBase32Char (c : Nat) : Prop := (65 ≤ c ∧ c ≤ 90) ∨ (50 ≤ c ∧ c ≤ 55)

instance : DecidablePred isBase32Char := fun c => by
  unfold isBase32Char
  infer_instance

/-! ## Example data -/

/-- A 26-byte token value. -/
def tokA : GoString := lit "ABCDEFGHIJKLMNOPQRSTUVWXYZ"

/-- A `users` row for `a@b.com`. -/
def rowA (active : Bool) : UserRow :=
  { id := 1, email := lit "a@b.com", first_name := lit "A", last_name := lit "B",
    password := lit "digest", created_at := [], updated_at := [], user_active := active }

/-- A `tokens` row holding `tokA` for user 1, expiring at instant 100. -/
def tokenRowA : Token :=
  { ID := 1, UserId := 1, Email := lit "a@b.com", Token := tokA, TokenHash := [],
    CreatedAt := 0, UpdatedAt := 0, Expiry := 100 }

/-- A store with one user and one token of that user. -/
def dbA (active : Bool) : DB := { users := [rowA active], tokens := [tokenRowA] }

/-- A store with one user and no token. -/
def dbNoToken (active : Bool) : DB := { users := [rowA active], tokens := [] }

/-- A store whose only token belongs to a user that does not exist. -/
def dbOrphan : DB := { users := [], tokens := [tokenRowA] }

/-- Collaborators for the examples: `digest` is the hash of `secret`, the random
source yields sixteen `0xff` bytes, the clock reads 50. -/
def envA : Env :=
  { now := 50
    randRead := .ok (List.replicate 16 255)
    compareHashAndPassword := fun hash pw =>
      if hash = lit "digest" ∧ pw = lit "secret" then .matched else .mismatched
    sum256 := fun _ => [] }

/-- A body holding one JSON object with members `email` and `password`,
followed by further content when `atEOF` is false. -/
def credsBody (email password : GoString) (atEOF : Bool) : Body :=
  { members := [("email", email), ("password", password)], decodeErr := none, atEOF := atEOF }

/-- The body with the single member `token`. -/
def tokenBody (v : GoString) : Body :=
  { members := [("token", v)], decodeErr := none, atEOF := true }

/-- A body that is not JSON: the first `Decode` fails and stores nothing. -/
def malformedBody : Body :=
  { members := [], decodeErr := some (lit "unexpected EOF"), atEOF := false }

/-! ## Facts about `Split` and `Contains` -/

theorem Split_ne_nil (s : GoString) (sep : Nat) : Split s sep ≠ [] := by
  induction s with
  | nil => simp [Split]
  | cons c cs ih =>
    unfold Split
    split
    · simp
    · split <;> simp

theorem Split_of_not_mem (s : GoString) (sep : Nat) (h : sep ∉ s) : Split s sep = [s] := by
  induction s with
  | nil => simp [Split]
  | cons c cs ih =>
    have hc : c ≠ sep := fun e => h (by simp [e])
    have hcs : sep ∉ cs := fun e => h (by simp [e])
    simp [Split, hc, ih hcs]

theorem Split_append_sep (a b : GoString) (sep : Nat) (h : sep ∉ a) :
    Split (a ++ sep :: b) sep = a :: Split b sep := by
  induction a with
  | nil => simp [Split]
  | cons c cs ih =>
    have hc : c ≠ sep := fun e => h (by simp [e])
    have hcs : sep ∉ cs := fun e => h (by simp [e])
    simp [Split, hc, ih hcs]

theorem Split_eq_single (s b : GoString) (sep : Nat) (h : Split s sep = [b]) :
    s = b ∧ sep ∉ b := by
  induction s generalizing b with
  | nil =>
    simp [Split] at h
    subst h
    simp
  | cons c cs ih =>
    unfold Split at h
    split at h
    · simp at h
      exact absurd h.2 (Split_ne_nil cs sep)
    · rename_i hc
      split at h
      · rename_i heq
        exact absurd heq (Split_ne_nil cs sep)
      · rename_i p ps heq
        simp at h
        obtain ⟨hb, hps⟩ := h
        subst hps
        obtain ⟨h1, h2⟩ := ih p heq
        subst hb
        subst h1
        refine ⟨rfl, ?_⟩
        simp only [List.mem_cons, not_or]
        exact ⟨fun e => hc e.symm, h2⟩

theorem Split_eq_pair (s a b : GoString) (sep : Nat) (h : Split s sep = [a, b]) :
    s = a ++ sep :: b ∧ sep ∉ a ∧ sep ∉ b := by
  induction s generalizing a with
  | nil => simp [Split] at h
  | cons c cs ih =>
    unfold Split at h
    split at h
    · rename_i hc
      simp at h
      obtain ⟨ha, hb⟩ := h
      obtain ⟨h1, h2⟩ := Split_eq_single cs b sep hb
      subst ha
      subst h1
      subst hc
      simp [h2]
    · rename_i hc
      split at h
      · simp at h
      · rename_i p ps heq
        simp at h
        obtain ⟨ha, hps⟩ := h
        subst hps
        obtain ⟨h1, h2, h3⟩ := ih p heq
        subst ha
        refine ⟨by simp [h1], ?_, h3⟩
        simp only [List.mem_cons, not_or]
        exact ⟨fun e => hc e.symm, h2⟩

theorem space_not_mem_Bearer : space ∉ lit "Bearer" := by decide

theorem Split_bearer (s : GoString) (hs : space ∉ s) :
    Split (lit "Bearer" ++ space :: s) space = [lit "Bearer", s] := by
  rw [Split_append_sep _ _ _ space_not_mem_Bearer, Split_of_not_mem s space hs]

/-- The header test of `AuthenticateToken` passes exactly on `Bearer`, one space
and a space-free segment. -/
theorem bearer_form_iff (h : GoString) :
    (¬ ((Split h space).length ≠ 2 ∨ (Split h space).getD 0 [] ≠ lit "Bearer")) ↔
      ∃ s, h = lit "Bearer" ++ space :: s ∧ space ∉ s := by
  constructor
  · intro hh
    simp only [not_or, not_not] at hh
    obtain ⟨hlen, hhead⟩ := hh
    match hsp : Split h space, hlen, hhead with
    | [a, b], _, hhead =>
      simp at hhead
      obtain ⟨h1, _, h3⟩ := Split_eq_pair h a b space hsp
      exact ⟨b, by rw [h1, hhead], h3⟩
  · rintro ⟨s, rfl, hs⟩
    rw [Split_bearer s hs]
    simp

theorem Contains_iff (s substr : GoString) : Contains s substr = true ↔ substr <:+: s := by
  induction s with
  | nil =>
    simp [Contains, List.isEmpty_iff]
  | cons c cs ih =>
    simp only [Contains, Bool.or_eq_true, ih, List.isPrefixOf_iff_prefix]
    rw [List.infix_cons_iff]

/-! ## Bearer authentication -/

theorem auth_header_events (db : DB) (now : Time) (s : GoString) (hs : space ∉ s)
    (hlen : s.length = 26) :
    Token.AuthenticateToken db now (lit "Bearer" ++ space :: s) =
      match Token.GetByToken db s with
      | .error _ => (.error (lit "no matching token found"), [Event.selectTokenByToken s])
      | .ok tfd =>
        if tfd.Expiry < now then
          (.error (lit "token has expired"), [Event.selectTokenByToken s])
        else
          match Token.GetUserForToken db tfd with
          | .error _ =>
            (.error (lit "no matching user found"),
              [Event.selectTokenByToken s, Event.selectUserById tfd.UserId])
          | .ok user =>
            if user.Active = false then
              (.error (lit "user is not active"),
                [Event.selectTokenByToken s, Event.selectUserById tfd.UserId])
            else
              (.ok user, [Event.selectTokenByToken s, Event.selectUserById tfd.UserId]) := by
  have hne : lit "Bearer" ++ space :: s ≠ [] := by simp
  unfold Token.AuthenticateToken
  rw [if_neg hne]
  simp only [Split_bearer s hs]
  simp [hlen]

/-- C1 (as amended): for a header `Bearer <t>` with a 26-byte space-free `t` that
`GetByToken` finds, and every current time strictly after the expiry of the found
token, `AuthenticateToken` fails with `token has expired`, returns no user, and
has only looked the token up. -/
theorem C1_expired_strictly_after (db : DB) (now : Time) (t : GoString) (tfd : Token)
    (hlen : t.length = 26) (hsp : space ∉ t) (hfound : Token.GetByToken db t = .ok tfd)
    (hexp : tfd.Expiry < now) :
    Token.AuthenticateToken db now (lit "Bearer" ++ space :: t) =
      (.error (lit "token has expired"), [Event.selectTokenByToken t]) := by
  rw [auth_header_events db now t hsp hlen, hfound]
  simp [hexp]

theorem C1_expired_strictly_after_witness :
    Token.AuthenticateToken (dbA true) 101 (lit "Bearer" ++ space :: tokA) =
      (.error (lit "token has expired"), [Event.selectTokenByToken tokA]) :=
  C1_expired_strictly_after (dbA true) 101 tokA tokenRowA (by decide) (by decide) (by decide)
    (by decide)

/-- C1 (as stated) fails at `now == expiry`: the row is found, its expiry equals
the current time, and `AuthenticateToken` does not answer `token has expired`
but goes on to load the owning user. -/
theorem C1_counterexample_now_eq_expiry :
    Token.GetByToken (dbA true) tokA = .ok tokenRowA ∧
    tokA.length = 26 ∧
    (100 : Time) ≥ tokenRowA.Expiry ∧
    (Token.AuthenticateToken (dbA true) 100 (lit "Bearer" ++ space :: tokA)).1 ≠
      .error (lit "token has expired") ∧
    (Token.AuthenticateToken (dbA true) 100 (lit "Bearer" ++ space :: tokA)).2 =
      [Event.selectTokenByToken tokA, Event.selectUserById 1] := by
  decide

/-- C2: `AuthenticateToken` reaches the store only on a header `Bearer`, one
space and a space-free segment of exactly 26 bytes. An empty header and a header
not of that form fail with a malformed-header error, a header of that form with a
segment of another length fails with `token wrong size`, and in these cases no
store statement is issued. -/
theorem C2_malformed_header_no_lookup (db : DB) (now : Time) (h : GoString) :
    (h = [] → Token.AuthenticateToken db now h =
      (.error (lit "no authorization header received"), [])) ∧
    (h ≠ [] → (¬ ∃ s, h = lit "Bearer" ++ space :: s ∧ space ∉ s) →
      Token.AuthenticateToken db now h =
        (.error (lit "no valid authorization header received"), [])) ∧
    (∀ s, h = lit "Bearer" ++ space :: s → space ∉ s → s.length ≠ 26 →
      Token.AuthenticateToken db now h = (.error (lit "token wrong size"), [])) ∧
    ((Token.AuthenticateToken db now h).2 ≠ [] →
      ∃ s, h = lit "Bearer" ++ space :: s ∧ space ∉ s ∧ s.length = 26) := by
  have h1 : h = [] → Token.AuthenticateToken db now h =
      (.error (lit "no authorization header received"), []) := by
    intro he
    simp [Token.AuthenticateToken, he]
  have h2 : h ≠ [] → (¬ ∃ s, h = lit "Bearer" ++ space :: s ∧ space ∉ s) →
      Token.AuthenticateToken db now h =
        (.error (lit "no valid authorization header received"), []) := by
    intro hne hform
    have hbad := (not_iff_not.mpr (bearer_form_iff h)).mpr hform
    simp only [not_not] at hbad
    unfold Token.AuthenticateToken
    rw [if_neg hne]
    simp only []
    rw [if_pos hbad]
  have h3 : ∀ s, h = lit "Bearer" ++ space :: s → space ∉ s → s.length ≠ 26 →
      Token.AuthenticateToken db now h = (.error (lit "token wrong size"), []) := by
    intro s hs hsp hlen
    subst hs
    have hne : lit "Bearer" ++ space :: s ≠ [] := by simp
    unfold Token.AuthenticateToken
    rw [if_neg hne]
    simp only [Split_bearer s hsp]
    simp [hlen]
  refine ⟨h1, h2, h3, ?_⟩
  intro hev
  by_cases he : h = []
  · rw [h1 he] at hev
    exact absurd rfl hev
  · by_cases hform : ∃ s, h = lit "Bearer" ++ space :: s ∧ space ∉ s
    · obtain ⟨s, hs, hsp⟩ := hform
      by_cases hlen : s.length = 26
      · exact ⟨s, hs, hsp, hlen⟩
      · rw [h3 s hs hsp hlen] at hev
        exact absurd rfl hev
    · rw [h2 he hform] at hev
      exact absurd rfl hev

theorem C2_malformed_header_no_lookup_witness :
    Token.AuthenticateToken (dbA true) 0 (lit "Bearer short") =
      (.error (lit "token wrong size"), []) :=
  (C2_malformed_header_no_lookup (dbA true) 0 (lit "Bearer short")).2.2.1 (lit "short")
    (by decide) (by decide) (by decide)

/-- C3 (the code at the claim): `GetUserForToken` never yields a user, so
`AuthenticateToken` returns no user and `ValidToken` returns `false` on every
input; on a stored, unexpired token of an existing active user both end in
`no matching user found`. -/
theorem C3_valid_token_never_authenticates :
    (∀ (db : DB) (now : Time) (h : GoString) (u : User),
      (Token.AuthenticateToken db now h).1 ≠ .ok u) ∧
    (∀ (db : DB) (now : Time) (t : GoString), (Token.ValidToken db now t).1.1 = false) ∧
    (dbA true).tokens.find? (fun r => r.Token = tokA) = some tokenRowA ∧
    (dbA true).users.find? (fun r => r.id = tokenRowA.UserId) = some (rowA true) ∧
    (rowA true).user_active = true ∧ (50 : Time) < tokenRowA.Expiry ∧ tokA.length = 26 ∧
    Token.AuthenticateToken (dbA true) 50 (lit "Bearer" ++ space :: tokA) =
      (.error (lit "no matching user found"),
        [Event.selectTokenByToken tokA, Event.selectUserById 1]) ∧
    (Token.ValidToken (dbA true) 50 tokA).1 = (false, some (lit "no matching user found")) := by
  have hg : ∀ (db : DB) (t : Token), ∀ u, Token.GetUserForToken db t ≠ .ok u := by
    intro db t u
    unfold Token.GetUserForToken Scan
    split <;> simp
  refine ⟨?_, ?_, by decide, by decide, by decide, by decide, by decide, by decide, by decide⟩
  · intro db now h u
    unfold Token.AuthenticateToken
    split
    · simp
    · simp only []
      split
      · simp
      · split
        · simp
        · split
          · simp
          · split
            · simp
            · split
              · simp
              · rename_i hu
                exact absurd hu (hg _ _ _)
  · intro db now t
    unfold Token.ValidToken
    split
    · rfl
    · split
      · rfl
      · rename_i hu
        exact absurd hu (hg _ _ _)

/-- C6 (as stated) fails: for a token value absent from the store `ValidToken`
returns `false` together with a non-nil error, not with a nil error. -/
theorem C6_counterexample_absent_token :
    (dbNoToken true).tokens.find? (fun r => r.Token = tokA) = none ∧
    (Token.ValidToken (dbNoToken true) 0 tokA).1 ≠ (false, none) ∧
    (Token.ValidToken (dbNoToken true) 0 tokA).1 =
      (false, some (lit "no matching token found")) := by
  decide

/-- C6 (as amended): `ValidToken` returns `false` together with a non-nil error
for every token value that is absent from the store (`no matching token found`),
whose owning user row is missing (`no matching user found`), or whose expiry
has passed. -/
theorem C6_invalid_token_false_with_error (db : DB) (now : Time) (t : GoString) :
    (db.tokens.find? (fun r => r.Token = t) = none →
      (Token.ValidToken db now t).1 = (false, some (lit "no matching token found"))) ∧
    (∀ row, db.tokens.find? (fun r => r.Token = t) = some row →
      (db.users.find? (fun r => r.id = row.UserId) = none →
        (Token.ValidToken db now t).1 = (false, some (lit "no matching user found"))) ∧
      (row.Expiry < now →
        (Token.ValidToken db now t).1.1 = false ∧ (Token.ValidToken db now t).1.2 ≠ none)) := by
  refine ⟨?_, ?_⟩
  · intro habs
    simp [Token.ValidToken, Token.GetByToken, Scan, habs]
  · intro row hrow
    refine ⟨?_, ?_⟩
    · intro horph
      simp [Token.ValidToken, Token.GetByToken, Token.GetUserForToken, Scan, hrow, horph]
    · intro hexp
      unfold Token.ValidToken
      simp only [Token.GetByToken, Scan, hrow, if_true, id]
      split
      · simp
      · split
        · simp
        · simp

theorem C6_invalid_token_false_with_error_witness :
    (Token.ValidToken dbOrphan 0 tokA).1 = (false, some (lit "no matching user found")) ∧
    ((Token.ValidToken (dbA true) 101 tokA).1.1 = false ∧
      (Token.ValidToken (dbA true) 101 tokA).1.2 ≠ none) ∧
    (Token.ValidToken (dbNoToken true) 0 tokA).1 =
      (false, some (lit "no matching token found")) :=
  ⟨((C6_invalid_token_false_with_error dbOrphan 0 tokA).2 tokenRowA (by decide)).1 (by decide),
   ((C6_invalid_token_false_with_error (dbA true) 101 tokA).2 tokenRowA (by decide)).2
     (by decide),
   (C6_invalid_token_false_with_error (dbNoToken true) 0 tokA).1 (by decide)⟩

/-! ## Error classification -/

theorem Contains_notActive :
    Contains (lit "user is not active") (lit "SQLSTATE 23505") = false ∧
    Contains (lit "user is not active") (lit "SQLSTATE 22001") = false ∧
    Contains (lit "user is not active") (lit "SQLSTATE 23503") = false := by
  decide

theorem errorJSON_notActive (w : List Written) :
    errorJSON w (some (lit "user is not active")) [] =
      some (w ++ [{ status := StatusBadRequest,
                    body := { Error := true, Message := lit "user is not active",
                              Data := .absent } }]) := by
  simp [errorJSON, writeJSON, Contains_notActive.1, Contains_notActive.2.1,
    Contains_notActive.2.2]

/-- C9: `errorJSON` classifies a storage error by its text. The signatures
`SQLSTATE 23505`, `SQLSTATE 22001`, `SQLSTATE 23503` are tested in this order,
each gives its own message (the three are pairwise distinct) with status 403
whatever status the caller supplied; an error with none of them is answered with
its own text and the status supplied by the caller, 400 when none is supplied.
In every case exactly one envelope with `error = true` is written. -/
theorem C9_errorJSON_classification (w : List Written) (e : GoError) (status : List Nat) :
    (lit "SQLSTATE 23505" <:+: e →
      errorJSON w (some e) status = some (w ++ [{ status := 403, body :=
        { Error := true, Message := lit "duplicate value violates unique constraint",
          Data := .absent } }])) ∧
    (¬ lit "SQLSTATE 23505" <:+: e → lit "SQLSTATE 22001" <:+: e →
      errorJSON w (some e) status = some (w ++ [{ status := 403, body :=
        { Error := true, Message := lit "the value you are trying to insert is too large",
          Data := .absent } }])) ∧
    (¬ lit "SQLSTATE 23505" <:+: e → ¬ lit "SQLSTATE 22001" <:+: e →
      lit "SQLSTATE 23503" <:+: e →
      errorJSON w (some e) status = some (w ++ [{ status := 403, body :=
        { Error := true, Message := lit "foreign key violation", Data := .absent } }])) ∧
    (¬ lit "SQLSTATE 23505" <:+: e → ¬ lit "SQLSTATE 22001" <:+: e →
      ¬ lit "SQLSTATE 23503" <:+: e →
      errorJSON w (some e) status = some (w ++ [{ status := status.headD 400, body :=
        { Error := true, Message := e, Data := .absent } }])) ∧
    lit "duplicate value violates unique constraint" ≠
      lit "the value you are trying to insert is too large" ∧
    lit "duplicate value violates unique constraint" ≠ lit "foreign key violation" ∧
    lit "the value you are trying to insert is too large" ≠ lit "foreign key violation" := by
  refine ⟨?_, ?_, ?_, ?_, by decide, by decide, by decide⟩
  · intro h1
    have c1 := (Contains_iff e _).mpr h1
    simp [errorJSON, writeJSON, c1, StatusForbidden]
  · intro h1 h2
    have c1 : Contains e (lit "SQLSTATE 23505") = false := by
      rw [← Bool.not_eq_true, Contains_iff]; exact h1
    have c2 := (Contains_iff e _).mpr h2
    simp [errorJSON, writeJSON, c1, c2, StatusForbidden]
  · intro h1 h2 h3
    have c1 : Contains e (lit "SQLSTATE 23505") = false := by
      rw [← Bool.not_eq_true, Contains_iff]; exact h1
    have c2 : Contains e (lit "SQLSTATE 22001") = false := by
      rw [← Bool.not_eq_true, Contains_iff]; exact h2
    have c3 := (Contains_iff e _).mpr h3
    simp [errorJSON, writeJSON, c1, c2, c3, StatusForbidden]
  · intro h1 h2 h3
    have c1 : Contains e (lit "SQLSTATE 23505") = false := by
      rw [← Bool.not_eq_true, Contains_iff]; exact h1
    have c2 : Contains e (lit "SQLSTATE 22001") = false := by
      rw [← Bool.not_eq_true, Contains_iff]; exact h2
    have c3 : Contains e (lit "SQLSTATE 23503") = false := by
      rw [← Bool.not_eq_true, Contains_iff]; exact h3
    cases status with
    | nil => simp [errorJSON, writeJSON, c1, c2, c3, StatusBadRequest]
    | cons a rest => simp [errorJSON, writeJSON, c1, c2, c3]

theorem C9_errorJSON_classification_witness :
    errorJSON [] (some (lit "ERROR: duplicate key (SQLSTATE 23505)")) [500] =
      some ([] ++ [{ status := 403, body :=
        { Error := true, Message := lit "duplicate value violates unique constraint",
          Data := .absent } }]) ∧
    errorJSON [] (some (lit "sql: no rows in result set")) [404] =
      some ([] ++ [{ status := [404].headD 400, body :=
        { Error := true, Message := lit "sql: no rows in result set", Data := .absent } }]) :=
  ⟨(C9_errorJSON_classification [] (lit "ERROR: duplicate key (SQLSTATE 23505)") [500]).1
     (by decide),
   (C9_errorJSON_classification [] (lit "sql: no rows in result set") [404]).2.2.2.1
     (by decide) (by decide) (by decide)⟩

/-! ## Generated token values -/

theorem EncodeToString_rfc4648 :
    EncodeToString (lit "foobar") = lit "MZXW6YTBOI" ∧ EncodeToString (lit "f") = lit "MY" ∧
    EncodeToString (lit "fooba") = lit "MZXW6YTB" ∧ EncodeToString [] = [] := by
  decide

theorem encodeStd_char : ∀ i, i < 32 → isBase32Char (encodeStd.getD i 0) := by
  decide

theorem encodeQuantum_char (src : List Nat) : ∀ c ∈ encodeQuantum src, isBase32Char c := by
  intro c hc
  simp only [encodeQuantum, List.mem_map] at hc
  obtain ⟨b, _, rfl⟩ := hc
  exact encodeStd_char _ (Nat.and_lt_two_pow b (by decide : 31 < 2 ^ 5))

theorem encodeQuantum_length (src : List Nat) : (encodeQuantum src).length = 8 := by
  simp [encodeQuantum, unpackQuantum]

theorem encodeLoop_sixteen (b0 b1 b2 b3 b4 b5 b6 b7 b8 b9 b10 b11 b12 b13 b14 b15 : Nat) :
    encodeLoop [b0, b1, b2, b3, b4, b5, b6, b7, b8, b9, b10, b11, b12, b13, b14, b15] =
      encodeQuantum [b0, b1, b2, b3, b4] ++ (encodeQuantum [b5, b6, b7, b8, b9] ++
        (encodeQuantum [b10, b11, b12, b13, b14] ++ encodeQuantum [b15])) := by
  simp [encodeLoop]

theorem EncodeToString_sixteen (bytes : List Nat) (hlen : bytes.length = 16) :
    (EncodeToString bytes).length = 26 ∧ ∀ c ∈ EncodeToString bytes, isBase32Char c := by
  match bytes, hlen with
  | [b0, b1, b2, b3, b4, b5, b6, b7, b8, b9, b10, b11, b12, b13, b14, b15], _ =>
    unfold EncodeToString
    rw [encodeLoop_sixteen]
    refine ⟨?_, ?_⟩
    · simp [encodeQuantum_length, EncodedLen]
    · intro c hc
      have hc1 := List.mem_of_mem_take hc
      simp only [List.mem_append] at hc1
      rcases hc1 with h | h | h | h <;> exact encodeQuantum_char _ c h

/-- C8: for every 16-byte result of the random source `GenerateToken` succeeds
with the unpadded base-32 encoding of those bytes as token value; the value has
length exactly 26, consists of the bytes `A`-`Z` and `2`-`7` only (no `=`), and
`AuthenticateToken` on `Bearer <value>` passes the header and length checks: it
goes on to look the value up in the store. -/
theorem C8_generated_token_shape (env : Env) (userID : Int) (ttl : Int) (bytes : List Nat)
    (hrand : env.randRead = .ok bytes) (hlen : bytes.length = 16) :
    ∃ tok, Token.GenerateToken env userID ttl = .ok tok ∧
      tok.Token = EncodeToString bytes ∧ tok.UserId = userID ∧ tok.Expiry = env.now + ttl ∧
      tok.Token.length = 26 ∧
      (∀ c ∈ tok.Token, isBase32Char c) ∧ 61 ∉ tok.Token ∧
      ∀ (db : DB) (now : Time),
        (Token.AuthenticateToken db now (lit "Bearer" ++ space :: tok.Token)).2.head? =
          some (Event.selectTokenByToken tok.Token) := by
  obtain ⟨h26, hchars⟩ := EncodeToString_sixteen bytes hlen
  have hno : ∀ n, ¬ isBase32Char n → n ∉ EncodeToString bytes := fun n hn hmem =>
    hn (hchars n hmem)
  refine ⟨{ ID := 0, UserId := userID, Email := [], Token := EncodeToString bytes,
             TokenHash := env.sum256 (EncodeToString bytes), CreatedAt := 0, UpdatedAt := 0,
             Expiry := env.now + ttl },
    by simp [Token.GenerateToken, hrand], rfl, rfl, rfl, h26, hchars, hno 61 (by decide), ?_⟩
  intro db now
  simp only []
  rw [auth_header_events db now _ (hno space (by decide)) h26]
  split
  · rfl
  · split
    · rfl
    · split
      · rfl
      · split <;> rfl

theorem C8_generated_token_shape_witness :
    ∃ tok, Token.GenerateToken
        { now := 0, randRead := .ok (List.replicate 16 255),
          compareHashAndPassword := fun _ _ => .mismatched, sum256 := fun _ => [] } 1 86400 =
          .ok tok ∧
      tok.Token = EncodeToString (List.replicate 16 255) ∧ tok.UserId = 1 ∧
      tok.Expiry = 0 + 86400 ∧ tok.Token.length = 26 ∧
      (∀ c ∈ tok.Token, isBase32Char c) ∧ 61 ∉ tok.Token ∧
      ∀ (db : DB) (now : Time),
        (Token.AuthenticateToken db now (lit "Bearer" ++ space :: tok.Token)).2.head? =
          some (Event.selectTokenByToken tok.Token) :=
  C8_generated_token_shape
    { now := 0, randRead := .ok (List.replicate 16 255),
      compareHashAndPassword := fun _ _ => .mismatched, sum256 := fun _ => [] }
    1 86400 (List.replicate 16 255) rfl (by decide)

/-! ## The handlers -/

theorem failWith_events (db : DB) (w : List Written) (ev : List Event) (err : Option GoError) :
    (failWith db w ev err).events = ev ∧ (failWith db w ev err).db = db := by
  unfold failWith
  split <;> simp

theorem auth_never_inactive (db : DB) (now : Time) (h : GoString) (u : User)
    (hu : u.Active = false) : (Token.AuthenticateToken db now h).1 ≠ .ok u := by
  unfold Token.AuthenticateToken
  split
  · simp
  · simp only []
    split
    · simp
    · split
      · simp
      · split
        · simp
        · split
          · simp
          · split
            · simp
            · split
              · simp
              · rename_i hact
                intro heq
                simp only [Except.ok.injEq] at heq
                rw [heq] at hact
                exact hact hu

/-- C4: a user with `active = false` is never authenticated. (a) `Login` with the
email and the matching password of an inactive user writes only envelopes with
`error = true` and no data (at least one, the last one `user is not active`),
does not panic, draws no random bytes, sends the store nothing but the user
lookup and leaves the store unchanged. (b) `AuthenticateToken` never returns a
user whose `Active` flag is false. -/
theorem C4_inactive_user_never_authenticated :
    (∀ (env : Env) (db : DB) (body : Body) (u : UserRow),
      db.users.find? (fun r => r.email = decodeField body true "email") = some u →
      u.user_active = false →
      env.compareHashAndPassword u.password (decodeField body true "password") = .matched →
      (Login env db body).panicked = false ∧
      (Login env db body).written.getLast? =
        some { status := 400, body := { Error := true, Message := lit "user is not active",
                                        Data := .absent } } ∧
      (∀ r ∈ (Login env db body).written, r.body.Error = true ∧ r.body.Data = .absent) ∧
      (Login env db body).db = db ∧
      (Login env db body).events = [Event.selectUserByEmail (decodeField body true "email")]) ∧
    (∀ (db : DB) (now : Time) (h : GoString) (u : User),
      u.Active = false → (Token.AuthenticateToken db now h).1 ≠ .ok u) := by
  refine ⟨?_, auth_never_inactive⟩
  intro env db body u hfind hin hcmp
  have hL : Login env db body =
      { db := db
        written := (match readJSON body with
          | some _ => writeJSON [] StatusBadRequest
              { Error := true, Message := lit "invalid json supplied", Data := .absent }
          | none => []) ++
            [{ status := StatusBadRequest,
               body := { Error := true, Message := lit "user is not active", Data := .absent } }]
        events := [Event.selectUserByEmail (decodeField body true "email")]
        panicked := false } := by
    unfold Login
    simp [User.GetByEmail, Scan, hfind, User.PasswordMatches, UserRow.toUser, hcmp, hin,
      failWith, errorJSON_notActive]
  rw [hL]
  refine ⟨rfl, by simp [StatusBadRequest], ?_, rfl, rfl⟩
  intro r hr
  simp only [List.mem_append, List.mem_singleton] at hr
  rcases hr with hr | hr
  · split at hr
    · simp only [writeJSON, List.nil_append, List.mem_singleton] at hr
      subst hr
      exact ⟨rfl, rfl⟩
    · simp at hr
  · subst hr
    exact ⟨rfl, rfl⟩

theorem C4_inactive_user_never_authenticated_witness :
    ((Login envA (dbA false) (credsBody (lit "a@b.com") (lit "secret") true)).panicked = false ∧
      (Login envA (dbA false) (credsBody (lit "a@b.com") (lit "secret") true)).written.getLast? =
        some { status := 400, body := { Error := true, Message := lit "user is not active",
                                        Data := .absent } } ∧
      (∀ r ∈ (Login envA (dbA false) (credsBody (lit "a@b.com") (lit "secret") true)).written,
        r.body.Error = true ∧ r.body.Data = .absent) ∧
      (Login envA (dbA false) (credsBody (lit "a@b.com") (lit "secret") true)).db = dbA false ∧
      (Login envA (dbA false) (credsBody (lit "a@b.com") (lit "secret") true)).events =
        [Event.selectUserByEmail
          (decodeField (credsBody (lit "a@b.com") (lit "secret") true) true "email")]) ∧
    (Token.AuthenticateToken (dbA false) 50 (lit "Bearer" ++ space :: tokA)).1 ≠
      .ok (rowA false).toUser :=
  ⟨C4_inactive_user_never_authenticated.1 envA (dbA false)
      (credsBody (lit "a@b.com") (lit "secret") true) (rowA false) (by decide) (by decide)
      (by decide),
   C4_inactive_user_never_authenticated.2 (dbA false) 50 (lit "Bearer" ++ space :: tokA)
      (rowA false).toUser (by decide)⟩

/-- C5 (the code at the claim): `Login` for an existing user with a password that
does not match (`PasswordMatches` gives `false` and a nil error) hands that nil
error to `errorJSON`, which panics: nothing is written after the check, so on a
well-formed body no response is written at all. -/
theorem C5_password_mismatch_panics :
    (∀ (env : Env) (db : DB) (body : Body) (u : UserRow),
      db.users.find? (fun r => r.email = decodeField body true "email") = some u →
      env.compareHashAndPassword u.password (decodeField body true "password") = .mismatched →
      User.PasswordMatches env u.toUser (decodeField body true "password") = (false, none) ∧
      (Login env db body).panicked = true ∧
      (readJSON body = none → (Login env db body).written = []) ∧
      (Login env db body).events = [Event.selectUserByEmail (decodeField body true "email")] ∧
      (Login env db body).db = db) ∧
    (dbA true).users.find? (fun r => r.email = lit "a@b.com") = some (rowA true) ∧
    User.PasswordMatches envA (rowA true).toUser (lit "wrong") = (false, none) ∧
    readJSON (credsBody (lit "a@b.com") (lit "wrong") true) = none ∧
    errorJSON [] none [] = none ∧
    Login envA (dbA true) (credsBody (lit "a@b.com") (lit "wrong") true) =
      { db := dbA true, written := [],
        events := [Event.selectUserByEmail (lit "a@b.com")], panicked := true } := by
  refine ⟨?_, by decide, by decide, by decide, by decide, by decide⟩
  intro env db body u hfind hcmp
  have hpm : User.PasswordMatches env u.toUser (decodeField body true "password") =
      (false, none) := by
    simp [User.PasswordMatches, UserRow.toUser, hcmp]
  have hL : Login env db body =
      { db := db
        written := (match readJSON body with
          | some _ => writeJSON [] StatusBadRequest
              { Error := true, Message := lit "invalid json supplied", Data := .absent }
          | none => [])
        events := [Event.selectUserByEmail (decodeField body true "email")]
        panicked := true } := by
    unfold Login
    simp [User.GetByEmail, Scan, hfind, User.PasswordMatches, UserRow.toUser, hcmp,
      failWith, errorJSON]
  rw [hL]
  refine ⟨hpm, rfl, ?_, rfl, rfl⟩
  intro hr
  simp [hr]

theorem GetUserForToken_fails (db : DB) (t : Token) (u : User) :
    Token.GetUserForToken db t ≠ .ok u := by
  unfold Token.GetUserForToken Scan
  split <;> simp

theorem ValidToken_flag_false (db : DB) (now : Time) (t : GoString) :
    (Token.ValidToken db now t).1.1 = false := by
  unfold Token.ValidToken
  split
  · rfl
  · split
    · rfl
    · rename_i hu
      exact absurd hu (GetUserForToken_fails _ _ _)

theorem ValidToken_events_select (db : DB) (now : Time) (t : GoString) :
    ∀ e ∈ (Token.ValidToken db now t).2,
      (∃ p, e = Event.selectTokenByToken p) ∨ (∃ i, e = Event.selectUserById i) := by
  intro e he
  unfold Token.ValidToken at he
  split at he
  · simp only [List.mem_singleton] at he
    exact Or.inl ⟨_, he⟩
  · split at he
    · simp only [List.mem_cons, List.mem_singleton, List.mem_nil_iff, or_false] at he
      rcases he with he | he
      · exact Or.inl ⟨_, he⟩
      · exact Or.inr ⟨_, he⟩
    · rename_i hu
      exact absurd hu (GetUserForToken_fails _ _ _)

/-- The `ValidateToken` handler decodes into an unexported field, so on a body
with member `token` equal to `v` it calls `ValidToken` on the empty string: its
store statements and its `data` are those of `ValidToken` on the empty string. -/
theorem ValidateToken_validates_empty_string (env : Env) (db : DB) (v : GoString) :
    ValidateToken env db (tokenBody v) =
      { db := db
        written := [{ status := 200, body :=
          { Error := false, Message := [],
            Data := .flag (Token.ValidToken db env.now []).1.1 } }]
        events := (Token.ValidToken db env.now []).2
        panicked := false } := by
  simp [ValidateToken, tokenBody, readJSON, decodeField, writeJSON, StatusOK]

/-- C7: for every request body with the single member `token` equal to `v`, the
`ValidateToken` handler writes exactly one envelope, with status 200,
`error = false` and `data` equal to the boolean that `ValidToken` returns for
that same `v`; it does not panic, leaves the store unchanged and sends the
store only `SELECT` statements. -/
theorem C7_validate_token_data_is_flag (env : Env) (db : DB) (v : GoString) :
    (ValidateToken env db (tokenBody v)).written =
      [{ status := 200, body :=
          { Error := false, Message := [],
            Data := .flag (Token.ValidToken db env.now v).1.1 } }] ∧
    (ValidateToken env db (tokenBody v)).db = db ∧
    (ValidateToken env db (tokenBody v)).panicked = false ∧
    ∀ e ∈ (ValidateToken env db (tokenBody v)).events,
      (∃ p, e = Event.selectTokenByToken p) ∨ (∃ i, e = Event.selectUserById i) := by
  rw [ValidateToken_validates_empty_string]
  refine ⟨?_, rfl, rfl, ?_⟩
  · simp only [ValidToken_flag_false]
  · exact ValidToken_events_select db env.now []

theorem failWith_written (db : DB) (w : List Written) (ev : List Event) (err : Option GoError) :
    (failWith db w ev err).panicked = true ∨
      ∃ r, (failWith db w ev err).written = w ++ [r] := by
  unfold failWith
  cases err with
  | none => left; simp [errorJSON]
  | some e =>
    right
    unfold errorJSON
    simp only [writeJSON]
    exact ⟨_, rfl⟩

/-- C10 (the code at the claim): `Login` does not stop after rejecting the body.
Whatever the body, its first store statement is the user lookup, and after a
rejected body it either panics or writes a second response after
`invalid json supplied`. On a JSON object with valid credentials followed by
further content it looks the user up, generates a token, inserts it and writes a
second response `logged in`; on a body that is not JSON it writes the error of
the user lookup as second response. -/
theorem C10_login_continues_after_rejected_body :
    (∀ (env : Env) (db : DB) (body : Body),
      (Login env db body).events.head? =
        some (Event.selectUserByEmail (decodeField body true "email")) ∧
      (readJSON body ≠ none →
        (Login env db body).panicked = true ∨
          ∃ r, (Login env db body).written =
            [{ status := 400, body := { Error := true, Message := lit "invalid json supplied",
                                        Data := .absent } }, r])) ∧
    readJSON (credsBody (lit "a@b.com") (lit "secret") false) =
      some (lit "body must only have a single json value") ∧
    (Login envA (dbNoToken true) (credsBody (lit "a@b.com") (lit "secret") false)).written.map
        (fun r => (r.status, r.body.Error, r.body.Message)) =
      [(400, true, lit "invalid json supplied"), (200, false, lit "logged in")] ∧
    (Login envA (dbNoToken true) (credsBody (lit "a@b.com") (lit "secret") false)).events =
      [Event.selectUserByEmail (lit "a@b.com"), Event.randRead, Event.selectTokensByUser 1,
        Event.insertToken
          { ID := 1, UserId := 1, Email := lit "a@b.com",
            Token := lit "77777777777777777777777774", TokenHash := [], CreatedAt := 0,
            UpdatedAt := 0, Expiry := 86400000000050 }] ∧
    (Login envA (dbNoToken true) (credsBody (lit "a@b.com") (lit "secret") false)).db.tokens.length
      = 1 ∧
    readJSON malformedBody = some (lit "unexpected EOF") ∧
    Login envA (dbNoToken true) malformedBody =
      { db := dbNoToken true
        written :=
          [{ status := 400, body := { Error := true, Message := lit "invalid json supplied",
                                      Data := .absent } },
           { status := 400, body := { Error := true, Message := lit "sql: no rows in result set",
                                      Data := .absent } }]
        events := [Event.selectUserByEmail []]
        panicked := false } := by
  refine ⟨?_, by decide, by decide, by decide, by decide, by decide, by decide⟩
  intro env db body
  refine ⟨?_, ?_⟩
  · unfold Login
    simp only []
    split
    · simp [failWith_events]
    · split
      · simp [failWith_events]
      · split
        · simp [failWith_events]
        · split
          · simp [failWith_events]
          · split
            · simp [failWith_events]
            · simp
  · intro hrej
    obtain ⟨e, he⟩ := Option.ne_none_iff_exists'.mp hrej
    unfold Login
    simp only [he, writeJSON, List.nil_append, StatusBadRequest]
    split
    · exact failWith_written _ _ _ _
    · split
      · exact failWith_written _ _ _ _
      · split
        · exact failWith_written _ _ _ _
        · split
          · exact failWith_written _ _ _ _
          · split
            · exact failWith_written _ _ _ _
            · right
              exact ⟨_, rfl⟩

end SpaAuth
